import Mathlib

/-!
Verification of the real-time data client of the `umg-tc-py1-arduino`
frontend: the WebSocket feed service (`websocket-service.js`), the REST
polling/caching client (`api-service.js`) and the shared configuration and
decoding helpers (`config.js`).

JavaScript numbers are modelled as exact rationals extended with a NaN
element (`JSNum`); configuration objects are modelled as partial maps from
property names to values, so that reading an absent property yields
`none` (JavaScript `undefined`), which arithmetic turns into NaN.
-/

/-- A JavaScript number: an exact rational or NaN.  Reading an absent
object property gives `undefined`, which arithmetic coerces to NaN. -/
inductive JSNum where
  | nan : JSNum
  | num : ℚ → JSNum
deriving DecidableEq, Repr

/-- JavaScript multiplication: NaN-absorbing. -/
def JSNum.mul : JSNum → JSNum → JSNum
  | .num a, .num b => .num (a * b)
  | _, _ => .nan

/-- `Math.min`: returns NaN if any argument is NaN. -/
def JSNum.jsMin : JSNum → JSNum → JSNum
  | .num a, .num b => .num (min a b)
  | _, _ => .nan

/-- `Math.pow` with a natural exponent (the only use in the source has
exponent `reconnectAttempts - 1 ≥ 0`). -/
def JSNum.pow : JSNum → Nat → JSNum
  | .num a, e => .num (a ^ e)
  | .nan, _ => .nan

/-- Coerce a property-lookup result (`undefined` or a number) to a
`JSNum` for arithmetic. -/
def jsOfOpt : Option ℚ → JSNum
  | none => .nan
  | some q => .num q

/-! ## `config.js`: the `APP_CONFIG` object

Each sub-object is a partial map from property name to value, mirroring
the object literals in the source.  Note that `RECONNECT_DELAY` lives in
`TIMEOUTS`, not in `RECONNECTION`. -/

/-- `APP_CONFIG.TIMEOUTS` from `config.js`. -/
def APP_CONFIG_TIMEOUTS : String → Option ℚ
  | "API_REQUEST" => some 5000
  | "WS_CONNECTION" => some 10000
  | "HEALTH_CHECK" => some 30000
  | "STATS_UPDATE" => some 10000
  | "RECONNECT_DELAY" => some 3000
  | _ => none

/-- `APP_CONFIG.RECONNECTION` from `config.js`. -/
def APP_CONFIG_RECONNECTION : String → Option ℚ
  | "MAX_ATTEMPTS" => some 10
  | "BACKOFF_FACTOR" => some (3 / 2)
  | "MAX_DELAY" => some 30000
  | _ => none

/-- `APP_CONFIG.DATA` from `config.js`. -/
def APP_CONFIG_DATA : String → Option ℚ
  | "MAX_HISTORY_DISPLAY" => some 50
  | "CACHE_DURATION" => some 300000
  | _ => none

/-! ## `config.js`: `extractLDRValue`

The source:
```
function extractLDRValue(rawData) {
    if (typeof rawData === 'number') return rawData;
    if (typeof rawData === 'string' && rawData.includes('LDR=')) {
        const match = rawData.match(/LDR=(\d+)/);
        return match ? parseInt(match[1]) : 0;
    }
    return parseInt(rawData) || 0;
}
```
We model strings as their character lists, the regex scan and
`parseInt` explicitly. -/

/-- A raw wire value as received over JSON: a number, a string, or
something else (e.g. `undefined`), which `parseInt` turns into NaN. -/
inductive RawData where
  | num : JSNum → RawData
  | str : String → RawData
  | other : RawData
deriving DecidableEq, Repr

/-- Split off the maximal leading run of ASCII digits (regex `\d+`). -/
def takeDigitRun : List Char → List Char × List Char
  | [] => ([], [])
  | c :: cs =>
    if c.isDigit then
      let p := takeDigitRun cs
      (c :: p.1, p.2)
    else ([], c :: cs)

/-- Value of a digit string read left to right in base 10. -/
def digitsToNat (ds : List Char) : Nat :=
  ds.foldl (fun a c => 10 * a + (c.toNat - 48)) 0

/-- Does the list start with the four characters `LDR=`? -/
def startsWithLDR : List Char → Bool
  | a :: b :: c :: d :: _ => a = 'L' && b = 'D' && c = 'R' && d = '='
  | _ => false

/-- Does the list start with `LDR=` immediately followed by a digit? -/
def startsWithLDRDigit : List Char → Bool
  | a :: b :: c :: d :: e :: _ =>
    a = 'L' && b = 'D' && c = 'R' && d = '=' && e.isDigit
  | _ => false

/-- `String.prototype.includes('LDR=')`: some position starts with the
marker. -/
def containsLDR : List Char → Bool
  | [] => false
  | c :: cs => startsWithLDR (c :: cs) || containsLDR cs

/-- The regex match `/LDR=(\d+)/`: scanning left to right, the first
position at which `LDR=` is immediately followed by at least one digit
yields the value of the maximal digit run there (`cs.drop 3` is the
list after the 4-character marker). -/
def matchLDR : List Char → Option Nat
  | [] => none
  | c :: cs =>
    if startsWithLDRDigit (c :: cs) then
      some (digitsToNat (takeDigitRun (cs.drop 3)).1)
    else matchLDR cs

/-- JavaScript whitespace skipped by `parseInt`. -/
def isJsSpace (c : Char) : Bool :=
  c = ' ' || c = '\t' || c = '\n' || c = '\r'

/-- Drop leading whitespace. -/
def skipWs : List Char → List Char
  | c :: cs => if isJsSpace c then skipWs cs else c :: cs
  | [] => []

/-- Hex-digit test for `parseInt`'s automatic radix-16 mode. -/
def isHexDigit (c : Char) : Bool :=
  c.isDigit || ('a' ≤ c && c ≤ 'f') || ('A' ≤ c && c ≤ 'F')

/-- Numeric value of a hex digit. -/
def hexVal (c : Char) : Nat :=
  if c.isDigit then c.toNat - 48
  else if 'a' ≤ c && c ≤ 'f' then c.toNat - 87
  else c.toNat - 55

/-- Split off the maximal leading run of hex digits. -/
def takeHexRun : List Char → List Char × List Char
  | [] => ([], [])
  | c :: cs =>
    if isHexDigit c then
      let p := takeHexRun cs
      (c :: p.1, p.2)
    else ([], c :: cs)

/-- Parse an unsigned prefix: either `0x`/`0X` followed by hex digits,
or a run of decimal digits; `none` when no digit can be read (NaN). -/
def parseUnsigned (l : List Char) : Option Nat :=
  match l with
  | a :: b :: rest =>
    if a = '0' && (b = 'x' || b = 'X') then
      let p := takeHexRun rest
      if p.1 = [] then none
      else some (p.1.foldl (fun x c => 16 * x + hexVal c) 0)
    else
      let p := takeDigitRun l
      if p.1 = [] then none else some (digitsToNat p.1)
  | _ =>
    let p := takeDigitRun l
    if p.1 = [] then none else some (digitsToNat p.1)

/-- `parseInt(s)`: skip whitespace, optional sign, then an unsigned
prefix; `none` models NaN. -/
def jsParseInt (s : String) : Option Int :=
  match skipWs s.data with
  | [] => (parseUnsigned []).map (fun n => (n : Int))
  | c :: cs =>
    if c = '-' then (parseUnsigned cs).map (fun n => -(n : Int))
    else if c = '+' then (parseUnsigned cs).map (fun n => (n : Int))
    else (parseUnsigned (c :: cs)).map (fun n => (n : Int))

/-- `extractLDRValue` from `config.js`.  `parseInt(rawData) || 0` maps
NaN (and 0) to 0 and keeps every other integer. -/
def extractLDRValue : RawData → JSNum
  | .num q => q
  | .str s =>
    if containsLDR s.data then
      match matchLDR s.data with
      | some n => .num n
      | none => .num 0
    else
      match jsParseInt s with
      | some v => .num v
      | none => .num 0
  | .other => .num 0

/-! ## Verified decimal printer (modelling helper)

Used to state the general decode property of `extractLDRValue` over
arbitrary numerals: `natChars n` is the usual decimal numeral of `n`. -/

/-- The decimal digit character of `n < 10`. -/
def digitChar : Nat → Char
  | 0 => '0' | 1 => '1' | 2 => '2' | 3 => '3' | 4 => '4'
  | 5 => '5' | 6 => '6' | 7 => '7' | 8 => '8' | 9 => '9'
  | _ => '*'

/-- Fuelled decimal printer (structural recursion so the kernel can
evaluate it). -/
def natCharsAux : Nat → Nat → List Char
  | 0, _ => []
  | fuel + 1, n =>
    if n < 10 then [digitChar n]
    else natCharsAux fuel (n / 10) ++ [digitChar (n % 10)]

/-- Decimal numeral of a natural number, most significant digit first. -/
def natChars (n : Nat) : List Char :=
  natCharsAux (n + 1) n

/-! ## `websocket-service.js`: the `WebSocketService` class

State fields mirror the instance fields of the class; the timer handles
`pingInterval` and `reconnectTimeout` are modelled as booleans recording
whether a live (pending) timer exists, and the transport handle `ws` as a
boolean recording whether a WebSocket object has been created.  Methods
become functions from state to state together with the list of events
delivered to registered callbacks, in emission order. -/

/-- Error payloads passed to `onError` callbacks. -/
inductive WSErrorKind where
  | maxReconnectsReached : Nat → WSErrorKind
  | websocketError : WSErrorKind
  | connectError : WSErrorKind
  | parseError : WSErrorKind
deriving DecidableEq, Repr

/-- Events delivered to registered callbacks, tagged by callback list. -/
inductive WSEvent where
  | dataEv : JSNum → Option Nat → String → WSEvent
  | statusEv : WSEvent
  | connectedEv : Option Nat → WSEvent
  | disconnectedEv : Nat → String → Bool → WSEvent
  | errorEv : WSErrorKind → WSEvent
  | reconnectingEv : Nat → Option Nat → Option JSNum → WSEvent
deriving DecidableEq, Repr

/-- `this.metrics` of `WebSocketService`. -/
structure WSMetrics where
  messagesReceived : Nat
  lastMessageTime : Option Nat
  totalReconnects : Nat
  avgLatency : ℚ
deriving DecidableEq, Repr

/-- Instance state of `WebSocketService`. -/
structure WSState where
  ws : Bool
  isConnected : Bool
  reconnectAttempts : Nat
  maxReconnectAttempts : Nat
  pingInterval : Bool
  reconnectTimeout : Bool
  connectionStartTime : Option Nat
  metrics : WSMetrics
deriving DecidableEq, Repr

/-- The constructor's initial metrics. -/
def initWSMetrics : WSMetrics :=
  { messagesReceived := 0, lastMessageTime := none, totalReconnects := 0,
    avgLatency := 0 }

/-- The constructor's initial state (`maxReconnectAttempts` comes from
`APP_CONFIG.RECONNECTION.MAX_ATTEMPTS = 10`). -/
def initWSState : WSState :=
  { ws := false, isConnected := false, reconnectAttempts := 0,
    maxReconnectAttempts := 10, pingInterval := false,
    reconnectTimeout := false, connectionStartTime := none,
    metrics := initWSMetrics }

/-- The backoff delay computed in `attemptReconnect`: the source reads
`APP_CONFIG.RECONNECTION.RECONNECT_DELAY` (a property absent from the
`RECONNECTION` object), multiplies by
`BACKOFF_FACTOR ^ (reconnectAttempts - 1)` and caps with
`Math.min(·, MAX_DELAY)`. -/
def reconnectDelay (attempt : Nat) : JSNum :=
  JSNum.jsMin
    (JSNum.mul (jsOfOpt (APP_CONFIG_RECONNECTION "RECONNECT_DELAY"))
      (JSNum.pow (jsOfOpt (APP_CONFIG_RECONNECTION "BACKOFF_FACTOR")) (attempt - 1)))
    (jsOfOpt (APP_CONFIG_RECONNECTION "MAX_DELAY"))

/-- Modelled from the spec: the intended backoff formula
`min(baseDelay * backoffFactor^(attempt-1), maxDelay)` with the defaults
baseDelay = 3000 ms (the `RECONNECT_DELAY` constant, which `config.js`
defines under `TIMEOUTS`), backoffFactor = 1.5 and maxDelay = 30000 ms. -/
def specReconnectDelay (attempt : Nat) : ℚ :=
  min ((APP_CONFIG_TIMEOUTS "RECONNECT_DELAY").getD 0 *
    (3 / 2 : ℚ) ^ (attempt - 1)) 30000

/-- `attemptReconnect()`: past the maximum, emit one
`max_reconnects_reached` error and stop; otherwise increment the counter
and the reconnect metric, emit `onReconnecting` with the computed delay
and schedule a reconnect timer. -/
def attemptReconnect (st : WSState) : WSState × List WSEvent :=
  if st.reconnectAttempts ≥ st.maxReconnectAttempts then
    (st, [.errorEv (.maxReconnectsReached st.reconnectAttempts)])
  else
    let a := st.reconnectAttempts + 1
    ({ st with
        reconnectAttempts := a,
        metrics := { st.metrics with totalReconnects := st.metrics.totalReconnects + 1 },
        reconnectTimeout := true },
      [.reconnectingEv a (some st.maxReconnectAttempts) (some (reconnectDelay a))])

/-- `handleClose(event)`: mark disconnected, stop the ping interval, emit
`onDisconnected`, and when the close was not clean and its code differs
from 1000 invoke `attemptReconnect`. -/
def handleClose (code : Nat) (reason : String) (wasClean : Bool)
    (st : WSState) : WSState × List WSEvent :=
  let st1 := { st with isConnected := false, pingInterval := false }
  let ev := WSEvent.disconnectedEv code reason wasClean
  if ¬wasClean ∧ code ≠ 1000 then
    let p := attemptReconnect st1
    (p.1, ev :: p.2)
  else
    (st1, [ev])

/-- `handleOpen()`: mark connected, reset the attempt counter, record the
connection start time, start the ping interval, emit `onConnected`. -/
def handleOpen (now : Nat) (st : WSState) : WSState × List WSEvent :=
  ({ st with
      isConnected := true, reconnectAttempts := 0,
      connectionStartTime := some now, pingInterval := true },
    [.connectedEv (some now)])

/-- Outcome of a connection attempt, resolving the nondeterminism of the
transport: the socket opens at time `t`, fires an error, the bounded
wait elapses, or the `WebSocket` constructor itself throws. -/
inductive ConnectOutcome where
  | opens : Nat → ConnectOutcome
  | errs : ConnectOutcome
  | timesOut : ConnectOutcome
  | ctorThrows : ConnectOutcome
deriving DecidableEq, Repr

/-- `connect()`: returns `some b` when the promise resolves with `b` and
`none` when it rejects.  When already connected it returns `true`
immediately; otherwise it emits `onReconnecting {attempt}` and creates
the transport, whose outcome decides the rest. -/
def connect (outcome : ConnectOutcome) (st : WSState) :
    Option Bool × WSState × List WSEvent :=
  if st.isConnected then
    (some true, st, [])
  else
    let ev0 := WSEvent.reconnectingEv (st.reconnectAttempts + 1) none none
    match outcome with
    | .opens t =>
      let p := handleOpen t { st with ws := true }
      (some true, p.1, ev0 :: p.2)
    | .errs =>
      (none, { st with ws := true }, [ev0, .errorEv .websocketError])
    | .timesOut =>
      (none, { st with ws := true }, [ev0])
    | .ctorThrows =>
      (some false, st, [ev0, .errorEv .connectError])

/-- `disconnect(code, reason)`: only when a transport exists and the
service is connected does it stop the ping interval, clear a pending
reconnect timer and call `ws.close(code, reason)`; the second component
records the close call issued on the transport (`none` = no-op). -/
def disconnect (code : Nat) (st : WSState) : WSState × Option Nat :=
  if st.ws ∧ st.isConnected then
    ({ st with pingInterval := false, reconnectTimeout := false }, some code)
  else
    (st, none)

/-- The transport close event produced by a `disconnect` call: a close
handshake completed by `ws.close` reports `wasClean = true`, so the
subsequent `handleClose` sees a clean close with the requested code. -/
def disconnectThenClose (code : Nat) (reason : String) (st : WSState) :
    WSState × List WSEvent :=
  let p := disconnect code st
  match p.2 with
  | some c => handleClose c reason true p.1
  | none => (p.1, [])

/-- `forceReconnect()`: disconnect cleanly when connected (the close
event settles during the 1000 ms wait), reset the attempt counter, then
`connect()`. -/
def forceReconnect (outcome : ConnectOutcome) (st : WSState) :
    Option Bool × WSState × List WSEvent :=
  if st.isConnected then
    let p := disconnectThenClose 1000 "Reconexion manual" st
    let q := connect outcome { p.1 with reconnectAttempts := 0 }
    (q.1, q.2.1, p.2 ++ q.2.2)
  else
    let q := connect outcome { st with reconnectAttempts := 0 }
    (q.1, q.2.1, q.2.2)

/-- `updateLatency(latency)`: initialise the smoothed average when it is
0, otherwise fold `avg * 0.8 + latency * 0.2`. -/
def updateLatency (m : WSMetrics) (latency : ℚ) : WSMetrics :=
  if m.avgLatency = 0 then
    { m with avgLatency := latency }
  else
    { m with avgLatency := m.avgLatency * 0.8 + latency * 0.2 }

/-- An inbound frame after `JSON.parse`, routed on its `type` field;
`malformed` models a frame on which `JSON.parse` throws. -/
inductive WSMessage where
  | ldrUpdate : RawData → Option Nat → WSMessage
  | pong : Option Nat → WSMessage
  | systemStatus : WSMessage
  | unknown : WSMessage
  | malformed : WSMessage
deriving DecidableEq, Repr

/-- `handleLDRUpdate(data)`: decode the value and emit `onData`. -/
def handleLDRUpdate (value : RawData) (timestamp : Option Nat)
    (st : WSState) : WSState × List WSEvent :=
  (st, [.dataEv (extractLDRValue value) timestamp "websocket"])

/-- `handleMessage(event)`: parse, update receive metrics, then route by
type.  A `pong` folds `now - timestamp` into the latency average only
when the echoed timestamp is truthy (present and nonzero). -/
def handleMessage (now : Nat) (msg : WSMessage) (st : WSState) :
    WSState × List WSEvent :=
  match msg with
  | .malformed => (st, [.errorEv .parseError])
  | m =>
    let st1 := { st with metrics :=
      { st.metrics with
          messagesReceived := st.metrics.messagesReceived + 1,
          lastMessageTime := some now } }
    match m with
    | .ldrUpdate v ts => handleLDRUpdate v ts st1
    | .pong ts =>
      match ts with
      | some t =>
        if t ≠ 0 then
          ({ st1 with metrics := updateLatency st1.metrics ((now : ℚ) - (t : ℚ)) }, [])
        else (st1, [])
      | none => (st1, [])
    | .systemStatus => (st1, [.statusEv])
    | _ => (st1, [])

/-- A connected state reached by `handleOpen` at time 0 from the
constructor's state with a transport present. -/
def connectedWSState : WSState :=
  (handleOpen 0 { initWSState with ws := true }).1

/-- One failed automatic reconnection cycle: the pending reconnect timer
fires (consuming it), the scheduled `connect()` attempt fails, and the
transport then reports an abnormal close (code 1006), which runs
`handleClose`. -/
def failedCycle (st : WSState) : WSState × List WSEvent :=
  let p := connect .errs { st with reconnectTimeout := false }
  let q := handleClose 1006 "" false p.2.1
  (q.1, p.2.2 ++ q.2)

/-- Iterate `failedCycle`, accumulating the emitted events in order. -/
def iterFailedCycles : Nat → WSState → WSState × List WSEvent
  | 0, st => (st, [])
  | n + 1, st =>
    let p := failedCycle st
    let q := iterFailedCycles n p.1
    (q.1, p.2 ++ q.2)

/-- Does an event witness that the automatic-reconnect path ran
(`attemptReconnect` either scheduled a retry or reported exhaustion)? -/
def reconnectPathEvent : WSEvent → Bool
  | .reconnectingEv _ (some _) _ => true
  | .errorEv (.maxReconnectsReached _) => true
  | _ => false

/-- Is an event an `onError` emission? -/
def isErrorEv : WSEvent → Bool
  | .errorEv _ => true
  | _ => false

/-- Is an event the `max_reconnects_reached` error emission? -/
def isMaxReachedEv : WSEvent → Bool
  | .errorEv (.maxReconnectsReached _) => true
  | _ => false

/-- Is an event an `onReconnecting` emission from `attemptReconnect`
(it carries `maxAttempts`, i.e. a retry was scheduled)? -/
def isScheduledRetryEv : WSEvent → Bool
  | .reconnectingEv _ (some _) _ => true
  | _ => false

/-! ## `api-service.js`: the `APIService` class

The cache `Map` is modelled as an association list with unique keys
(insertion replaces), metrics as a record, and the network as an
explicit outcome parameter resolving the nondeterminism of `fetch`.
`request` is polymorphic in the payload type carried by a successful,
well-formed response. -/

/-- `this.metrics` of `APIService`. -/
structure APIMetrics where
  requestCount : Nat
  successCount : Nat
  errorCount : Nat
  avgResponseTime : ℚ
  lastRequestTime : Option Nat
deriving DecidableEq, Repr

/-- A cache entry `{data, timestamp}`. -/
structure CacheEntry (α : Type) where
  data : α
  timestamp : Nat
deriving DecidableEq, Repr

/-- Instance state of `APIService` (the parts the claims concern). -/
structure APIState (α : Type) where
  cache : List (String × CacheEntry α)
  cacheTimeout : Nat
  timeout : Nat
  metrics : APIMetrics
deriving DecidableEq, Repr

/-- The constructor's initial metrics. -/
def initAPIMetrics : APIMetrics :=
  { requestCount := 0, successCount := 0, errorCount := 0,
    avgResponseTime := 0, lastRequestTime := none }

/-- The constructor's state: `cacheTimeout` from
`APP_CONFIG.DATA.CACHE_DURATION = 300000`, `timeout` from
`APP_CONFIG.TIMEOUTS.API_REQUEST = 5000`. -/
def initAPIState (α : Type) : APIState α :=
  { cache := [], cacheTimeout := 300000, timeout := 5000,
    metrics := initAPIMetrics }

/-- Remove a key from the modelled `Map`. -/
def eraseKey {α : Type} (k : String) (c : List (String × CacheEntry α)) :
    List (String × CacheEntry α) :=
  c.filter (fun p => p.1 ≠ k)

/-- `getFromCache(key)`: `none` when absent; a present entry older than
`cacheTimeout` is deleted and reported absent; otherwise its data is
returned.  The state is returned because the lookup can evict. -/
def getFromCache {α : Type} (now : Nat) (key : String) (st : APIState α) :
    Option α × APIState α :=
  match (st.cache.lookup key) with
  | none => (none, st)
  | some e =>
    if now - e.timestamp > st.cacheTimeout then
      (none, { st with cache := eraseKey key st.cache })
    else
      (some e.data, st)

/-- `cleanupCache()`: remove every expired entry. -/
def cleanupCache {α : Type} (now : Nat) (st : APIState α) : APIState α :=
  { st with cache := st.cache.filter (fun p => ¬(now - p.2.timestamp > st.cacheTimeout)) }

/-- `setCache(key, data)`: insert with the current time, then sweep the
expired entries whenever the map has grown past 50 entries. -/
def setCache {α : Type} (now : Nat) (key : String) (d : α) (st : APIState α) :
    APIState α :=
  let st1 := { st with cache := (key, ⟨d, now⟩) :: eraseKey key st.cache }
  if st1.cache.length > 50 then cleanupCache now st1 else st1

/-- `updateResponseTime(rt)`: same smoothing scheme as the WebSocket
latency average. -/
def updateResponseTime (m : APIMetrics) (rt : ℚ) : APIMetrics :=
  if m.avgResponseTime = 0 then
    { m with avgResponseTime := rt }
  else
    { m with avgResponseTime := m.avgResponseTime * 0.8 + rt * 0.2 }

/-- Outcome of the `fetch` issued by `request`, resolving the network's
nondeterminism: rejection, abort by the timeout, a non-2xx status, a
body on which `response.json()` throws, a well-formed body with
`success:false` (optional `error` message), or a well-formed success
payload. -/
inductive NetOutcome (α : Type) where
  | fetchFails : String → NetOutcome α
  | aborted : NetOutcome α
  | httpError : Nat → String → NetOutcome α
  | jsonThrows : NetOutcome α
  | appError : Option String → NetOutcome α
  | ok : α → NetOutcome α
deriving DecidableEq, Repr

/-- The errors `request` can throw. -/
inductive ApiError where
  | timeout : Nat → ApiError
  | http : Nat → String → ApiError
  | server : String → ApiError
  | network : String → ApiError
  | parse : ApiError
deriving DecidableEq, Repr

/-- The `message` of the thrown `Error`, as used by `getCompleteData`. -/
def ApiError.message : ApiError → String
  | .timeout ms => "Timeout de peticion (" ++ toString ms ++ "ms)"
  | .http s t => "HTTP " ++ toString s ++ ": " ++ t
  | .server m => m
  | .network m => m
  | .parse => "JSON parse error"

/-- Bump `errorCount`. -/
def bumpError (m : APIMetrics) : APIMetrics :=
  { m with errorCount := m.errorCount + 1 }

/-- `request(endpoint, options)` for the resolved target `url` and HTTP
method `method`; the cache key is `` `${method}_${url}` ``.
`tStart`/`tEnd` are the clock readings at entry and at the `fetch`
settling; the third result component counts the network calls issued.
Faithful to the source: `requestCount` and `lastRequestTime` are bumped
first; a GET is answered from a fresh cache entry with no network call;
`updateResponseTime` runs as soon as `fetch` resolves, before the status
and `success` checks; only a successful GET is cached; `successCount` is
bumped only on the network success path and `errorCount` on every
throw. -/
def request {α : Type} (tStart tEnd : Nat) (url method : String)
    (outcome : NetOutcome α) (st : APIState α) :
    Except ApiError α × APIState α × Nat :=
  let key := method ++ "_" ++ url
  let m1 := { st.metrics with
      requestCount := st.metrics.requestCount + 1,
      lastRequestTime := some tStart }
  let st1 := { st with metrics := m1 }
  let isGet := method = "GET"
  let hit : Option α × APIState α :=
    if isGet then getFromCache tStart key st1 else (none, st1)
  match hit.1 with
  | some d => (.ok d, hit.2, 0)
  | none =>
    let st2 := hit.2
    let rt : ℚ := ((tEnd - tStart : Nat) : ℚ)
    match outcome with
    | .fetchFails msg =>
      (.error (.network msg), { st2 with metrics := bumpError st2.metrics }, 1)
    | .aborted =>
      (.error (.timeout st2.timeout), { st2 with metrics := bumpError st2.metrics }, 1)
    | .httpError s t =>
      (.error (.http s t),
        { st2 with metrics := bumpError (updateResponseTime st2.metrics rt) }, 1)
    | .jsonThrows =>
      (.error .parse,
        { st2 with metrics := bumpError (updateResponseTime st2.metrics rt) }, 1)
    | .appError em =>
      (.error (.server (em.getD "Error del servidor")),
        { st2 with metrics := bumpError (updateResponseTime st2.metrics rt) }, 1)
    | .ok d =>
      let st3 := { st2 with metrics := updateResponseTime st2.metrics rt }
      let st4 := if isGet then setCache tEnd key d st3 else st3
      (.ok d,
        { st4 with metrics := { st4.metrics with successCount := st4.metrics.successCount + 1 } },
        1)

/-- An `AggregatedReading` as built by the polling wrappers. -/
structure Reading where
  value : JSNum
  timestamp : Option String
  rawData : RawData
  source : String
deriving DecidableEq, Repr

/-- The stats record built by `getStats`. -/
structure SensorStats where
  totalReadings : Nat
  minValue : Option ℚ
  maxValue : Option ℚ
  avgValue : Option ℚ
  firstReading : Option String
  lastReading : Option String
deriving DecidableEq, Repr

/-- The `data` field of a `/api/latest` response: `null` or a record
with the raw value and a timestamp. -/
structure LatestPayload where
  raw_data : RawData
  timestamp : Option String
deriving DecidableEq, Repr

/-- `getLatestReading()` as a function of its `request` result: a
rejection propagates (as the error message), a `null`/absent `data`
yields `none`, and otherwise the payload is normalised through
`extractLDRValue`. -/
def getLatestReading (resp : Except ApiError (Option LatestPayload)) :
    Except String (Option Reading) :=
  match resp with
  | .error e => .error e.message
  | .ok none => .ok none
  | .ok (some p) =>
    .ok (some { value := extractLDRValue p.raw_data, timestamp := p.timestamp,
                rawData := p.raw_data, source := "api" })

/-- `getHistory(limit)` as a function of its `request` result: each item
is normalised through `extractLDRValue`. -/
def getHistory (resp : Except ApiError (List LatestPayload)) :
    Except String (List Reading) :=
  match resp with
  | .error e => .error e.message
  | .ok items =>
    .ok (items.map (fun p =>
      { value := extractLDRValue p.raw_data, timestamp := p.timestamp,
        rawData := p.raw_data, source := "api" }))

/-- The aggregate result of `getCompleteData`: `stats := none` models
the `{}` fallback slot. -/
structure CompleteData where
  latest : Option Reading
  stats : Option SensorStats
  recentHistory : List Reading
  errors : List String
deriving DecidableEq, Repr

/-- `getCompleteData(historyLimit)` as a function of the three settled
sub-call results (`Promise.allSettled` order: latest, stats, history):
each rejected slot falls back (null / `{}` / `[]`) and contributes one
labelled message to `errors`. -/
def getCompleteData (latest : Except String (Option Reading))
    (stats : Except String SensorStats)
    (history : Except String (List Reading)) : CompleteData :=
  { latest := match latest with | .ok v => v | .error _ => none
    stats := match stats with | .ok v => some v | .error _ => none
    recentHistory := match history with | .ok v => v | .error _ => []
    errors :=
      (match latest with | .error m => ["Latest: " ++ m] | .ok _ => []) ++
      (match stats with | .error m => ["Stats: " ++ m] | .ok _ => []) ++
      (match history with | .error m => ["History: " ++ m] | .ok _ => []) }

/-- `Math.round(q * 100) / 100`. -/
def round2 (q : ℚ) : ℚ := ((round (q * 100) : ℤ) : ℚ) / 100

/-- `calculateCacheHitRate()`: 0 on an empty cache, otherwise
`Math.min(85 + Math.random() * 10, 100)` for the drawn `rand`. -/
def calculateCacheHitRate {α : Type} (rand : ℚ) (st : APIState α) : ℚ :=
  if st.cache.length > 0 then min (85 + rand * 10) 100 else 0

/-- The record returned by `getMetrics()`. -/
structure MetricsReport where
  requestCount : Nat
  successCount : Nat
  errorCount : Nat
  lastRequestTime : Option Nat
  successRate : ℚ
  avgResponseTime : ℚ
  cacheSize : Nat
  cacheHitRate : ℚ
deriving DecidableEq, Repr

/-- `getMetrics()`: the counters, the rounded success rate and average
response time, the cache size, and a cache hit rate computed from the
fresh random draw `rand`. -/
def getMetrics {α : Type} (rand : ℚ) (st : APIState α) : MetricsReport :=
  { requestCount := st.metrics.requestCount
    successCount := st.metrics.successCount
    errorCount := st.metrics.errorCount
    lastRequestTime := st.metrics.lastRequestTime
    successRate := round2 (if st.metrics.requestCount > 0 then
      (st.metrics.successCount : ℚ) / (st.metrics.requestCount : ℚ) * 100 else 0)
    avgResponseTime := round2 st.metrics.avgResponseTime
    cacheSize := st.cache.length
    cacheHitRate := calculateCacheHitRate rand st }

/-! ## Helper lemmas about the decoding functions -/

lemma takeDigitRun_split (ds t : List Char)
    (hds : ∀ c ∈ ds, c.isDigit = true)
    (ht : ∀ c, t.head? = some c → c.isDigit = false) :
    takeDigitRun (ds ++ t) = (ds, t) := by
  induction ds with
  | nil =>
    cases t with
    | nil => rfl
    | cons c cs =>
      have : c.isDigit = false := ht c rfl
      simp [takeDigitRun, this]
  | cons d ds ih =>
    have hd : d.isDigit = true := hds d (by simp)
    have := ih (fun c hc => hds c (by simp [hc]))
    simp [takeDigitRun, hd, this]

lemma digitsToNat_from (l : List Char) :
    ∀ a : Nat, l.foldl (fun x c => 10 * x + (c.toNat - 48)) a
      = a * 10 ^ l.length + digitsToNat l := by
  induction l with
  | nil => intro a; simp [digitsToNat]
  | cons c cs ih =>
    intro a
    simp only [List.foldl_cons, digitsToNat] at *
    rw [ih (10 * a + (c.toNat - 48)), ih (10 * 0 + (c.toNat - 48))]
    simp [List.length_cons, pow_succ]
    ring

lemma digitsToNat_append (a b : List Char) :
    digitsToNat (a ++ b) = digitsToNat a * 10 ^ b.length + digitsToNat b := by
  simp only [digitsToNat, List.foldl_append]
  exact digitsToNat_from b (digitsToNat a)

lemma digitChar_isDigit {d : Nat} (h : d < 10) : (digitChar d).isDigit = true := by
  interval_cases d <;> decide

lemma digitChar_val {d : Nat} (h : d < 10) : (digitChar d).toNat - 48 = d := by
  interval_cases d <;> decide

lemma natCharsAux_spec : ∀ (fuel n : Nat), 0 < fuel → n < 10 ^ fuel →
    natCharsAux fuel n ≠ []
    ∧ (∀ c ∈ natCharsAux fuel n, c.isDigit = true)
    ∧ digitsToNat (natCharsAux fuel n) = n := by
  intro fuel
  induction fuel with
  | zero => intro n hf; omega
  | succ f ih =>
    intro n _ h
    by_cases hn : n < 10
    · refine ⟨by simp [natCharsAux, hn], ?_, ?_⟩
      · intro c hc
        simp [natCharsAux, hn] at hc
        subst hc
        exact digitChar_isDigit hn
      · simp [natCharsAux, hn, digitsToNat, digitChar_val hn]
    · have hdiv : n / 10 < 10 ^ f := by
        rw [Nat.div_lt_iff_lt_mul (by norm_num)]
        calc n < 10 ^ (f + 1) := h
        _ = 10 ^ f * 10 := by ring
      have hf : 0 < f := by
        by_contra hf0
        have : f = 0 := by omega
        subst this
        simp at hdiv
        omega
      obtain ⟨h1, h2, h3⟩ := ih (n / 10) hf hdiv
      refine ⟨?_, ?_, ?_⟩
      · simp [natCharsAux, hn]
      · intro c hc
        simp [natCharsAux, hn] at hc
        rcases hc with hc | hc
        · exact h2 c hc
        · subst hc; exact digitChar_isDigit (Nat.mod_lt _ (by norm_num))
      · simp only [natCharsAux, if_neg hn]
        rw [digitsToNat_append, h3]
        simp [digitsToNat, digitChar_val (Nat.mod_lt n (show 0 < 10 by norm_num))]
        omega

lemma natChars_spec (n : Nat) :
    natChars n ≠ [] ∧ (∀ c ∈ natChars n, c.isDigit = true)
    ∧ digitsToNat (natChars n) = n := by
  have h : n < 10 ^ (n + 1) := by
    calc n < 10 ^ n := Nat.lt_pow_self (by norm_num) n
    _ ≤ 10 ^ (n + 1) := Nat.pow_le_pow_right (by norm_num) (Nat.le_succ n)
  exact natCharsAux_spec (n + 1) n (Nat.succ_pos n) h

lemma matchLDR_prefix (ds t : List Char) (hne : ds ≠ [])
    (hds : ∀ c ∈ ds, c.isDigit = true)
    (ht : ∀ c, t.head? = some c → c.isDigit = false) :
    matchLDR ('L' :: 'D' :: 'R' :: '=' :: (ds ++ t)) = some (digitsToNat ds) := by
  rcases ds with _ | ⟨d, ds⟩
  · exact absurd rfl hne
  · have hd : d.isDigit = true := hds d (by simp)
    have hrun := takeDigitRun_split (d :: ds) t hds ht
    show matchLDR ('L' :: 'D' :: 'R' :: '=' :: d :: (ds ++ t)) = some (digitsToNat (d :: ds))
    simp only [List.cons_append] at hrun
    simp [matchLDR, startsWithLDRDigit, hd, hrun]

lemma startsWithLDRDigit_noDigit (l : List Char)
    (h : ∀ c ∈ l, c.isDigit = false) : startsWithLDRDigit l = false := by
  rcases l with _ | ⟨a, _ | ⟨b, _ | ⟨c, _ | ⟨d, _ | ⟨e, rest⟩⟩⟩⟩⟩ <;>
    simp [startsWithLDRDigit]
  intro _ _ _ _
  exact h e (by simp)

lemma matchLDR_noDigit (l : List Char)
    (h : ∀ c ∈ l, c.isDigit = false) : matchLDR l = none := by
  induction l with
  | nil => rfl
  | cons c cs ih =>
    have hs : startsWithLDRDigit (c :: cs) = false := startsWithLDRDigit_noDigit _ h
    have := ih (fun x hx => h x (by simp [hx]))
    simp [matchLDR, hs, this]

lemma takeDigitRun_stuck (l : List Char)
    (h : ∀ c, l.head? = some c → c.isDigit = false) :
    (takeDigitRun l).1 = [] := by
  cases l with
  | nil => rfl
  | cons c cs => simp [takeDigitRun, h c rfl]

lemma parseUnsigned_noDigit (l : List Char)
    (h : ∀ c ∈ l, c.isDigit = false) : parseUnsigned l = none := by
  have hstuck : (takeDigitRun l).1 = [] := by
    apply takeDigitRun_stuck
    intro c hc
    cases l with
    | nil => simp at hc
    | cons x xs =>
      simp at hc
      subst hc
      exact h x (by simp)
  rcases l with _ | ⟨a, _ | ⟨b, rest⟩⟩
  · rfl
  · simp [parseUnsigned, hstuck]
  · have ha : a.isDigit = false := h a (by simp)
    have ha0 : ¬(a = '0') := by
      intro h0; subst h0; simp at ha
    simp [parseUnsigned, ha0, hstuck]

lemma skipWs_mem (l : List Char) : ∀ c ∈ skipWs l, c ∈ l := by
  induction l with
  | nil => intro c hc; simp [skipWs] at hc
  | cons x xs ih =>
    intro c hc
    by_cases hx : isJsSpace x = true
    · simp [skipWs, hx] at hc
      exact List.mem_cons_of_mem x (ih c hc)
    · simp [skipWs, hx] at hc
      rcases hc with hc | hc
      · simp [hc]
      · exact List.mem_cons_of_mem x hc

lemma jsParseInt_noDigit (s : String)
    (h : ∀ c ∈ s.data, c.isDigit = false) : jsParseInt s = none := by
  have hl : ∀ c ∈ skipWs s.data, c.isDigit = false :=
    fun c hc => h c (skipWs_mem s.data c hc)
  rcases he : skipWs s.data with _ | ⟨c, cs⟩
  · simp [jsParseInt, he, parseUnsigned, takeDigitRun]
  · have hcs : ∀ x ∈ cs, x.isDigit = false := by
      intro x hx
      exact hl x (by rw [he]; simp [hx])
    have hccs : ∀ x ∈ c :: cs, x.isDigit = false := by
      intro x hx
      exact hl x (by rw [he]; exact hx)
    by_cases h1 : c = '-'
    · simp [jsParseInt, he, h1, parseUnsigned_noDigit cs hcs]
    · by_cases h2 : c = '+'
      · simp [jsParseInt, he, h1, h2, parseUnsigned_noDigit cs hcs]
      · simp [jsParseInt, he, h1, h2, parseUnsigned_noDigit (c :: cs) hccs]

lemma extractLDRValue_noDigit (s : String)
    (h : ∀ c ∈ s.data, c.isDigit = false) :
    extractLDRValue (.str s) = .num 0 := by
  rcases hcl : containsLDR s.data with hF | hT <;>
    simp [extractLDRValue, hcl, matchLDR_noDigit s.data h, jsParseInt_noDigit s h]

/-! ## Claim theorems -/

/-- Claim C4: The decoding function used by both the feed's `ldr_update`
handler and the polling wrappers returns the number itself on a number,
the integer formed by the digits immediately following the marker
`LDR=` on a string containing that marker, the whole string parsed as
an integer otherwise, and 0 when neither yields a number; in particular
`"LDR=742"` decodes to 742, `"999"` to 999, and any non-numeric
(digit-free) string to 0. -/
theorem extractLDRValue_decode :
    (∀ q : JSNum, extractLDRValue (.num q) = q)
    ∧ (∀ (n : Nat) (t : String),
        (∀ c, t.data.head? = some c → c.isDigit = false) →
        extractLDRValue (.str ("LDR=" ++ String.mk (natChars n) ++ t)) = .num n)
    ∧ (∀ s : String, (∀ c ∈ s.data, c.isDigit = false) →
        extractLDRValue (.str s) = .num 0)
    ∧ extractLDRValue (.str "LDR=742") = .num 742
    ∧ extractLDRValue (.str "999") = .num 999
    ∧ extractLDRValue (.str "hello") = .num 0
    ∧ (∀ (v : RawData) (ts : Option Nat) (st : WSState),
        (handleLDRUpdate v ts st).2 = [.dataEv (extractLDRValue v) ts "websocket"])
    ∧ (∀ p : LatestPayload, getLatestReading (.ok (some p)) =
        .ok (some { value := extractLDRValue p.raw_data, timestamp := p.timestamp,
                    rawData := p.raw_data, source := "api" })) := by
  refine ⟨fun q => rfl, ?_, extractLDRValue_noDigit, by decide, by decide, by decide,
    fun v ts st => rfl, fun p => rfl⟩
  intro n t ht
  obtain ⟨hne, hdig, hval⟩ := natChars_spec n
  have hdata : ("LDR=" ++ String.mk (natChars n) ++ t).data
      = 'L' :: 'D' :: 'R' :: '=' :: (natChars n ++ t.data) := by
    simp [String.data_append]
  have hmatch := matchLDR_prefix (natChars n) t.data hne hdig ht
  have hcontains : containsLDR ('L' :: 'D' :: 'R' :: '=' :: (natChars n ++ t.data)) = true := by
    simp [containsLDR, startsWithLDR]
  simp [extractLDRValue, hdata, hcontains, hmatch, hval]

/-- Claim C4 witness: the general clauses of `extractLDRValue_decode`
evaluated at the numeral 742 with an empty tail and at the digit-free
string `"hola"`. -/
theorem extractLDRValue_decode_witness :
    extractLDRValue (.str ("LDR=" ++ String.mk (natChars 742) ++ "")) = .num 742
    ∧ extractLDRValue (.str "hola") = .num 0 :=
  ⟨extractLDRValue_decode.2.1 742 "" (by intro c hc; exact Option.noConfusion hc),
    extractLDRValue_decode.2.2.1 "hola" (by decide)⟩

/-- Claim C3: the delay actually computed by `attemptReconnect` is NaN for
every attempt, because the source reads `RECONNECT_DELAY` from the
`RECONNECTION` config object where it does not exist (it is defined
under `TIMEOUTS` with value 3000); the spec's formula
`min(3000 * 1.5^(n-1), 30000)` would give 3000, 4500, 6750, 10125 for
attempts 1..4. -/
theorem reconnectDelay_is_nan :
    (∀ a : Nat, reconnectDelay a = .nan)
    ∧ APP_CONFIG_RECONNECTION "RECONNECT_DELAY" = none
    ∧ APP_CONFIG_TIMEOUTS "RECONNECT_DELAY" = some 3000
    ∧ specReconnectDelay 1 = 3000 ∧ specReconnectDelay 2 = 4500
    ∧ specReconnectDelay 3 = 6750 ∧ specReconnectDelay 4 = 10125
    ∧ reconnectDelay 1 ≠ .num 3000 := by
  refine ⟨fun a => rfl, rfl, rfl, ?_, ?_, ?_, ?_, by decide⟩ <;>
    norm_num [specReconnectDelay, APP_CONFIG_TIMEOUTS]

/-- Claim C9: `connect()` on an already-connected client returns `true`
immediately, emits no event, and leaves the state (every field and
metric) unchanged, whatever the transport would have done. -/
theorem connect_idempotent_when_connected
    (outcome : ConnectOutcome) (st : WSState) (h : st.isConnected = true) :
    connect outcome st = (some true, st, []) := by
  simp [connect, h]

/-- Claim C9 witness: `connect_idempotent_when_connected` on the concrete
connected state. -/
theorem connect_idempotent_when_connected_witness :
    connectedWSState.isConnected = true
    ∧ connect .errs connectedWSState = (some true, connectedWSState, []) :=
  ⟨by decide, connect_idempotent_when_connected .errs connectedWSState (by decide)⟩

/-- Claim C2: with `maxReconnectAttempts = 10`, the first abnormal closure and
the following nine failed reconnection cycles each consume one attempt
(each schedules a retry and none reports exhaustion); the 11th closure's
would-be attempt emits exactly one `max_reconnects_reached` error and
schedules no reconnect timer, exactly 10 retries are scheduled in total,
and `forceReconnect()` afterwards resets the attempt counter to 0 and
reconnects. -/
theorem maxReconnects_exhaustion :
    (handleClose 1006 "" false connectedWSState).2.filter isMaxReachedEv = []
    ∧ (iterFailedCycles 9 (handleClose 1006 "" false connectedWSState).1).2.filter
        isMaxReachedEv = []
    ∧ (iterFailedCycles 9 (handleClose 1006 "" false connectedWSState).1).1.reconnectAttempts = 10
    ∧ (failedCycle (iterFailedCycles 9 (handleClose 1006 "" false connectedWSState).1).1).2.filter
        isMaxReachedEv = [.errorEv (.maxReconnectsReached 10)]
    ∧ (failedCycle (iterFailedCycles 9 (handleClose 1006 "" false connectedWSState).1).1).1.reconnectTimeout
        = false
    ∧ (failedCycle (iterFailedCycles 9 (handleClose 1006 "" false connectedWSState).1).1).1.reconnectAttempts
        = 10
    ∧ (((handleClose 1006 "" false connectedWSState).2
        ++ (iterFailedCycles 9 (handleClose 1006 "" false connectedWSState).1).2
        ++ (failedCycle (iterFailedCycles 9 (handleClose 1006 "" false connectedWSState).1).1).2).filter
          isScheduledRetryEv).length = 10
    ∧ ((forceReconnect (.opens 1)
        (failedCycle (iterFailedCycles 9 (handleClose 1006 "" false connectedWSState).1).1).1).2.1).reconnectAttempts
        = 0
    ∧ ((forceReconnect (.opens 1)
        (failedCycle (iterFailedCycles 9 (handleClose 1006 "" false connectedWSState).1).1).1).2.1).isConnected
        = true := by
  decide

/-- A reachable state with a pending reconnect timer: an abnormal close
while connected schedules an automatic retry, leaving the client
disconnected with `reconnectTimeout` live. -/
def pendingRetryState : WSState :=
  (handleClose 1006 "" false connectedWSState).1

/-- Claim C1 counterexample: with a reconnect timer pending (and the client
necessarily disconnected), `disconnect()` is a no-op — it cancels
neither timer, closes nothing, and the pending automatic retry
survives.  So "calling `disconnect()` cancels any pending reconnect
timer ... before closing the transport" fails in exactly the state
where a reconnect timer is pending. -/
theorem disconnect_pending_timer_counterexample :
    pendingRetryState.reconnectTimeout = true
    ∧ pendingRetryState.isConnected = false
    ∧ disconnect 1000 pendingRetryState = (pendingRetryState, none)
    ∧ (disconnect 1000 pendingRetryState).1.reconnectTimeout = true := by
  decide

/-- Claim C1 (amended): when the client is connected (the only case in which
`disconnect` closes the transport), `disconnect` cancels the ping timer
and any pending reconnect timer and issues the close; the close event
resulting from a `disconnect` (a clean close) never runs the
automatic-reconnect path, whatever the state; and an abnormal close
(`wasClean = false`) with code ≠ 1000 always runs it. -/
theorem disconnect_clean_close_guard :
    (∀ (st : WSState) (code : Nat), st.ws = true → st.isConnected = true →
      disconnect code st =
        ({ st with pingInterval := false, reconnectTimeout := false }, some code))
    ∧ (∀ (st : WSState) (code : Nat) (reason : String),
        (disconnectThenClose code reason st).2.filter reconnectPathEvent = [])
    ∧ (∀ (st : WSState) (code : Nat) (reason : String), code ≠ 1000 →
        (handleClose code reason false st).2.filter reconnectPathEvent ≠ []) := by
  refine ⟨?_, ?_, ?_⟩
  · intro st code h1 h2
    simp [disconnect, h1, h2]
  · intro st code reason
    by_cases h : st.ws = true ∧ st.isConnected = true
    · simp [disconnectThenClose, disconnect, h.1, h.2, handleClose,
        reconnectPathEvent]
    · rcases Decidable.not_and_iff_or_not.mp h with h1 | h1 <;>
        simp [disconnectThenClose, disconnect, h1, reconnectPathEvent]
  · intro st code reason hcode
    by_cases hmax : st.reconnectAttempts ≥ st.maxReconnectAttempts <;>
      simp [handleClose, hcode, attemptReconnect, hmax, reconnectPathEvent]

/-- Claim C1 witness: `disconnect_clean_close_guard` at the connected state
with code 1000 and at an abnormal 1006 close. -/
theorem disconnect_clean_close_guard_witness :
    disconnect 1000 connectedWSState =
      ({ connectedWSState with pingInterval := false, reconnectTimeout := false },
        some 1000)
    ∧ (handleClose 1006 "x" false connectedWSState).2.filter reconnectPathEvent ≠ [] :=
  ⟨disconnect_clean_close_guard.1 connectedWSState 1000 (by decide) (by decide),
    disconnect_clean_close_guard.2.2 connectedWSState 1006 "x" (by decide)⟩

/-- Helper: folding positive samples keeps the smoothed average
positive, so the `avgLatency === 0` initialisation branch never
re-triggers, and the fold computes the plain 0.8/0.2 recurrence. -/
lemma foldl_updateLatency_pos (rest : List ℚ) :
    ∀ m : WSMetrics, 0 < m.avgLatency → (∀ x ∈ rest, 0 < x) →
      (rest.foldl updateLatency m).avgLatency
        = rest.foldl (fun a x => a * 0.8 + x * 0.2) m.avgLatency := by
  induction rest with
  | nil => intro m _ _; rfl
  | cons x xs ih =>
    intro m hm hpos
    have hx : 0 < x := hpos x (by simp)
    have hne : ¬(m.avgLatency = 0) := by positivity
    have hstep : (updateLatency m x).avgLatency = m.avgLatency * 0.8 + x * 0.2 := by
      simp [updateLatency, hne]
    have hpos2 : 0 < (updateLatency m x).avgLatency := by
      rw [hstep]
      have : (0 : ℚ) < 0.8 := by norm_num
      have : (0 : ℚ) < 0.2 := by norm_num
      positivity
    have := ih (updateLatency m x) hpos2 (fun y hy => hpos y (by simp [hy]))
    simp only [List.foldl_cons, this, hstep]

/-- Claim C8 counterexample: starting from a zero average, the sample
sequence `[0, 10]` refutes the claimed recurrence — the first sample 0
stores 0, so the second sample re-triggers initialisation and stores
10, while `0.8 * 0 + 0.2 * 10 = 2 ≠ 10`. -/
theorem updateLatency_zero_counterexample :
    (updateLatency (updateLatency initWSMetrics 0) 10).avgLatency = 10
    ∧ (0 : ℚ) * 0.8 + 10 * 0.2 = 2
    ∧ (10 : ℚ) ≠ 2 := by
  refine ⟨by norm_num [updateLatency, initWSMetrics, initWSMetrics], by norm_num, by norm_num⟩

/-- Claim C8 (amended): for a first sample `s > 0` and subsequent positive
samples, the stored average equals the first sample after it is folded,
and each later sample `x` updates the stored average `a` to
`a * 0.8 + x * 0.2`.  (The restriction to positive samples is forced:
the initialisation branch is keyed on the stored average being 0, not
on this being the first sample.) -/
theorem updateLatency_smoothing (m : WSMetrics) (s : ℚ) (rest : List ℚ)
    (hm : m.avgLatency = 0) (hs : 0 < s) (hrest : ∀ x ∈ rest, 0 < x) :
    (updateLatency m s).avgLatency = s
    ∧ (rest.foldl updateLatency (updateLatency m s)).avgLatency
        = rest.foldl (fun a x => a * 0.8 + x * 0.2) s := by
  have hfirst : (updateLatency m s).avgLatency = s := by
    simp [updateLatency, hm]
  refine ⟨hfirst, ?_⟩
  rw [foldl_updateLatency_pos rest (updateLatency m s) (by rw [hfirst]; exact hs) hrest,
    hfirst]

/-- Claim C8 witness: `updateLatency_smoothing` with first sample 5 and one
further sample 10 gives `5 * 0.8 + 10 * 0.2 = 6`. -/
theorem updateLatency_smoothing_witness :
    (updateLatency initWSMetrics 5).avgLatency = 5
    ∧ (([10] : List ℚ).foldl updateLatency (updateLatency initWSMetrics 5)).avgLatency
        = ([10] : List ℚ).foldl (fun a x => a * 0.8 + x * 0.2) 5 :=
  updateLatency_smoothing initWSMetrics 5 [10] (by norm_num [initWSMetrics])
    (by norm_num) (by norm_num)

deriving instance DecidableEq for Except

/-- Claim C5: a GET `request` whose cache entry (keyed by
`method_url`) is present and at most the TTL old returns the cached
payload with zero network calls, changing nothing but the request
counter and timestamp; the identical request once the TTL has elapsed
performs exactly one network call. -/
theorem request_cache_ttl {α : Type} (tStart tEnd : Nat) (url : String)
    (outcome : NetOutcome α) (st : APIState α) (e : CacheEntry α)
    (hlookup : st.cache.lookup ("GET_" ++ url) = some e) :
    (tStart - e.timestamp ≤ st.cacheTimeout →
      request tStart tEnd url "GET" outcome st =
        (.ok e.data,
          { st with metrics := { st.metrics with
              requestCount := st.metrics.requestCount + 1,
              lastRequestTime := some tStart } },
          0))
    ∧ (tStart - e.timestamp > st.cacheTimeout →
        (request tStart tEnd url "GET" outcome st).2.2 = 1) := by
  constructor
  · intro hfresh
    have hnot : ¬(st.cacheTimeout < tStart - e.timestamp) := by omega
    simp [request, getFromCache, hlookup, hnot]
  · intro hexp
    have hlt : st.cacheTimeout < tStart - e.timestamp := hexp
    cases outcome <;> simp [request, getFromCache, hlookup, hlt]

/-- A concrete client state whose cache holds a fresh entry for the GET
request to `u`. -/
def cacheHitState : APIState Nat :=
  { cache := [("GET_u", ⟨7, 0⟩)], cacheTimeout := 300000, timeout := 5000,
    metrics := initAPIMetrics }

/-- Claim C5 witness: `request_cache_ttl` on the concrete cached state,
once inside the TTL (age 5 ms) and once past it (age 300001 ms). -/
theorem request_cache_ttl_witness :
    request 5 5 "u" "GET" (NetOutcome.ok 9) cacheHitState
      = (.ok 7,
          { cacheHitState with metrics := { cacheHitState.metrics with
              requestCount := cacheHitState.metrics.requestCount + 1,
              lastRequestTime := some 5 } },
          0)
    ∧ (request 300001 300002 "u" "GET" (NetOutcome.ok 9) cacheHitState).2.2 = 1 :=
  ⟨(request_cache_ttl 5 5 "u" (NetOutcome.ok 9) cacheHitState ⟨7, 0⟩ (by decide)).1
      (by decide),
    (request_cache_ttl 300001 300002 "u" (NetOutcome.ok 9) cacheHitState ⟨7, 0⟩
      (by decide)).2 (by decide)⟩

/-- `setCache` touches only the cache, never the metrics. -/
lemma setCache_metrics {α : Type} (now : Nat) (key : String) (d : α)
    (st : APIState α) : (setCache now key d st).metrics = st.metrics := by
  simp only [setCache, cleanupCache]
  split <;> rfl

/-- Claim C7 (amended): every `request` increments `requestCount` by
one; an invocation answered from the cache (zero network calls) returns
successfully but leaves `successCount` and the smoothed average
response time unchanged; an invocation that succeeds over the network
increments `successCount` and folds the elapsed time into the average;
every failing invocation increments `errorCount` and leaves
`successCount` unchanged. -/
theorem request_metrics (α : Type) (tStart tEnd : Nat) (url method : String)
    (outcome : NetOutcome α) (st : APIState α) :
    (request tStart tEnd url method outcome st).2.1.metrics.requestCount
        = st.metrics.requestCount + 1
    ∧ ((request tStart tEnd url method outcome st).2.2 = 0 →
        (request tStart tEnd url method outcome st).2.1.metrics.successCount
            = st.metrics.successCount
        ∧ (request tStart tEnd url method outcome st).2.1.metrics.avgResponseTime
            = st.metrics.avgResponseTime
        ∧ ∃ d, (request tStart tEnd url method outcome st).1 = .ok d)
    ∧ (∀ d, (request tStart tEnd url method outcome st).1 = .ok d →
        (request tStart tEnd url method outcome st).2.2 = 1 →
        (request tStart tEnd url method outcome st).2.1.metrics.successCount
            = st.metrics.successCount + 1
        ∧ (request tStart tEnd url method outcome st).2.1.metrics.avgResponseTime
            = (if st.metrics.avgResponseTime = 0 then ((tEnd - tStart : Nat) : ℚ)
                else st.metrics.avgResponseTime * 0.8 + ((tEnd - tStart : Nat) : ℚ) * 0.2))
    ∧ (∀ er, (request tStart tEnd url method outcome st).1 = .error er →
        (request tStart tEnd url method outcome st).2.1.metrics.errorCount
            = st.metrics.errorCount + 1
        ∧ (request tStart tEnd url method outcome st).2.1.metrics.successCount
            = st.metrics.successCount) := by
  by_cases hm : method = "GET"
  · subst hm
    cases hc : List.lookup ("GET_" ++ url) st.cache with
    | none =>
      cases outcome <;>
        simp [request, getFromCache, hc, updateResponseTime, bumpError,
          setCache_metrics] <;>
        split <;> simp
    | some e =>
      by_cases hexp : st.cacheTimeout < tStart - e.timestamp
      · cases outcome <;>
          simp [request, getFromCache, hc, hexp, updateResponseTime, bumpError,
            setCache_metrics] <;>
          split <;> simp
      · simp [request, getFromCache, hc, hexp]
  · cases outcome <;>
      simp [request, getFromCache, hm, updateResponseTime, bumpError,
        setCache_metrics] <;>
      split <;> simp

/-- Claim C7 counterexample: a `request` answered from the cache
returns successfully yet leaves `successCount` at 0 and the average
response time untouched — refuting "every invocation that returns
successfully (including one answered from the cache) additionally
increments successCount ... and folds the elapsed time". -/
theorem request_cacheHit_metrics_counterexample :
    (request 5 5 "u" "GET" (NetOutcome.ok 9) cacheHitState).1 = .ok 7
    ∧ (request 5 5 "u" "GET" (NetOutcome.ok 9) cacheHitState).2.1.metrics.successCount = 0
    ∧ cacheHitState.metrics.successCount = 0
    ∧ (request 5 5 "u" "GET" (NetOutcome.ok 9) cacheHitState).2.1.metrics.requestCount = 1
    ∧ (request 5 5 "u" "GET" (NetOutcome.ok 9) cacheHitState).2.1.metrics.avgResponseTime
        = cacheHitState.metrics.avgResponseTime := by
  decide

/-- Claim C7 witness: `request_metrics` on a fresh client with a
network success taking 10 ms. -/
theorem request_metrics_witness :
    (request 0 10 "u" "GET" (NetOutcome.ok 9) (initAPIState Nat)).2.1.metrics.requestCount = 1
    ∧ (request 0 10 "u" "GET" (NetOutcome.ok 9) (initAPIState Nat)).2.1.metrics.successCount = 1
    ∧ (request 0 10 "u" "GET" (NetOutcome.ok 9) (initAPIState Nat)).2.1.metrics.avgResponseTime = 10 := by
  obtain ⟨h1, _, h3, _⟩ := request_metrics Nat 0 10 "u" "GET" (.ok 9) (initAPIState Nat)
  have hs := h3 9 (by decide) (by decide)
  refine ⟨?_, ?_, ?_⟩
  · simpa [initAPIState, initAPIMetrics] using h1
  · simpa [initAPIState, initAPIMetrics] using hs.1
  · simpa [initAPIState, initAPIMetrics] using hs.2

/-- Claim C6: `getCompleteData` never fails as a whole — for every
combination of sub-call outcomes it returns a record whose error list
has exactly one labelled entry per failed sub-call, whose failed slots
hold their fallbacks (null latest, empty stats, empty history) and
whose successful slots hold the delivered values. -/
theorem getCompleteData_tolerates_failures
    (l : Except String (Option Reading)) (s : Except String SensorStats)
    (h : Except String (List Reading)) :
    ((getCompleteData l s h).errors.length =
      (match l with | .error _ => 1 | .ok _ => 0)
      + (match s with | .error _ => 1 | .ok _ => 0)
      + (match h with | .error _ => 1 | .ok _ => 0))
    ∧ (∀ m, l = .error m → (getCompleteData l s h).latest = none
        ∧ ("Latest: " ++ m) ∈ (getCompleteData l s h).errors)
    ∧ (∀ m, s = .error m → (getCompleteData l s h).stats = none
        ∧ ("Stats: " ++ m) ∈ (getCompleteData l s h).errors)
    ∧ (∀ m, h = .error m → (getCompleteData l s h).recentHistory = []
        ∧ ("History: " ++ m) ∈ (getCompleteData l s h).errors)
    ∧ (∀ v, l = .ok v → (getCompleteData l s h).latest = v)
    ∧ (∀ v, s = .ok v → (getCompleteData l s h).stats = some v)
    ∧ (∀ v, h = .ok v → (getCompleteData l s h).recentHistory = v) := by
  cases l <;> cases s <;> cases h <;> simp [getCompleteData]

/-- A concrete stats record for witnesses. -/
def sampleStats : SensorStats :=
  { totalReadings := 3, minValue := some 10, maxValue := some 900,
    avgValue := some 400, firstReading := none, lastReading := none }

/-- Claim C6 witness: `getCompleteData_tolerates_failures` with exactly
the latest sub-call failing — the other two slots populated and exactly
one error entry. -/
theorem getCompleteData_tolerates_failures_witness :
    (getCompleteData (.error "fallo") (.ok sampleStats) (.ok [])).errors.length = 1
    ∧ (getCompleteData (.error "fallo") (.ok sampleStats) (.ok [])).latest = none
    ∧ (getCompleteData (.error "fallo") (.ok sampleStats) (.ok [])).stats = some sampleStats
    ∧ (getCompleteData (.error "fallo") (.ok sampleStats) (.ok [])).recentHistory = [] := by
  obtain ⟨h1, h2, _, _, _, h6, h7⟩ :=
    getCompleteData_tolerates_failures (.error "fallo") (.ok sampleStats) (.ok [])
  exact ⟨by simpa using h1, (h2 "fallo" rfl).1, h6 sampleStats rfl, h7 [] rfl⟩

/-- A concrete client state with one cache entry, for the cache hit
rate. -/
def oneEntryAPIState : APIState Nat :=
  { cache := [("GET_x", ⟨1, 0⟩)], cacheTimeout := 300000, timeout := 5000,
    metrics := initAPIMetrics }

/-- Claim C10: the `cacheHitRate` of `getMetrics` is 0 whenever the
cache is empty and otherwise lies in [85, 100] as a function of the
fresh random draw alone; two calls on the identical state with
different draws return different reports, so `getMetrics` is not
deterministic. -/
theorem getMetrics_cacheHitRate_nondeterministic :
    (∀ (α : Type) (st : APIState α) (r : ℚ), st.cache = [] →
        (getMetrics r st).cacheHitRate = 0)
    ∧ (∀ (α : Type) (st : APIState α) (r : ℚ), 0 ≤ r → r < 1 → st.cache ≠ [] →
        85 ≤ (getMetrics r st).cacheHitRate ∧ (getMetrics r st).cacheHitRate ≤ 100)
    ∧ (getMetrics 0 oneEntryAPIState).cacheHitRate = 85
    ∧ (getMetrics (1/2) oneEntryAPIState).cacheHitRate = 90
    ∧ getMetrics 0 oneEntryAPIState ≠ getMetrics (1/2) oneEntryAPIState := by
  have h85 : (getMetrics 0 oneEntryAPIState).cacheHitRate = 85 := by
    norm_num [getMetrics, calculateCacheHitRate, oneEntryAPIState]
  have h90 : (getMetrics (1/2 : ℚ) oneEntryAPIState).cacheHitRate = 90 := by
    norm_num [getMetrics, calculateCacheHitRate, oneEntryAPIState]
  refine ⟨?_, ?_, h85, h90, ?_⟩
  · intro α st r hempty
    simp [getMetrics, calculateCacheHitRate, hempty]
  · intro α st r hr0 hr1 hne
    have hlen : 0 < st.cache.length := List.length_pos.mpr hne
    have hrate : (getMetrics r st).cacheHitRate = min (85 + r * 10) 100 := by
      simp [getMetrics, calculateCacheHitRate, hlen]
    constructor
    · rw [hrate]
      refine le_min ?_ (by norm_num)
      nlinarith
    · rw [hrate]
      exact min_le_right _ _
  · intro heq
    have := congrArg MetricsReport.cacheHitRate heq
    rw [h85, h90] at this
    norm_num at this

/-- Claim C10 witness: `getMetrics_cacheHitRate_nondeterministic` on an
empty-cache client and on the one-entry client with draw 1/2. -/
theorem getMetrics_cacheHitRate_nondeterministic_witness :
    (getMetrics 0 (initAPIState Nat)).cacheHitRate = 0
    ∧ 85 ≤ (getMetrics (1/2) oneEntryAPIState).cacheHitRate
    ∧ (getMetrics (1/2) oneEntryAPIState).cacheHitRate ≤ 100 :=
  ⟨getMetrics_cacheHitRate_nondeterministic.1 Nat (initAPIState Nat) 0 rfl,
    (getMetrics_cacheHitRate_nondeterministic.2.1 Nat oneEntryAPIState (1/2)
      (by norm_num) (by norm_num) (by decide)).1,
    (getMetrics_cacheHitRate_nondeterministic.2.1 Nat oneEntryAPIState (1/2)
      (by norm_num) (by norm_num) (by decide)).2⟩
